import Mathlib

/-!
Shallow embedding of the mycelial_morphogenSNN simulation core:
the browser control loop (`src/main.js` `animate`), the agent
(`src/agent.js`), the WebSocket bridge (`src/communication.js`) and the
standalone relay process (`proxy.js`).  Physics integration, rendering
and raycasting are external collaborators and are passed in as
parameters; everything the claims touch is translated from the source.
Real-valued quantities are modelled over `ℚ` (the JS numbers involved in
the claims are exact decimals); `Math.sqrt(e) < c` comparisons are
translated to the equivalent `e < c^2` with both sides nonnegative.
-/

namespace Morphogen

/-- A 3-vector, as used by CANNON.Vec3 / THREE.Vector3. -/
structure Vec3 where
  x : ℚ
  y : ℚ
  z : ℚ
deriving DecidableEq, Repr

/-- A quaternion (x, y, z, w), as used by CANNON/THREE. -/
structure Quat where
  x : ℚ
  y : ℚ
  z : ℚ
  w : ℚ
deriving DecidableEq, Repr

def Vec3.zero : Vec3 := ⟨0, 0, 0⟩

/-- The identity quaternion `(0, 0, 0, 1)` set by `resetPosition`. -/
def Quat.ident : Quat := ⟨0, 0, 0, 1⟩

/-- Cross product, used to rotate a vector by a quaternion. -/
def Vec3.cross (a b : Vec3) : Vec3 :=
  ⟨a.y * b.z - a.z * b.y, a.z * b.x - a.x * b.z, a.x * b.y - a.y * b.x⟩

def Vec3.add (a b : Vec3) : Vec3 := ⟨a.x + b.x, a.y + b.y, a.z + b.z⟩

def Vec3.smul (c : ℚ) (a : Vec3) : Vec3 := ⟨c * a.x, c * a.y, c * a.z⟩

/-- `v.applyQuaternion(q)` (THREE.js): rotate `v` by unit quaternion `q`,
via `v + q.w·t + q.xyz × t` with `t = 2 (q.xyz × v)`. -/
def Quat.rotate (q : Quat) (v : Vec3) : Vec3 :=
  let u : Vec3 := ⟨q.x, q.y, q.z⟩
  let t : Vec3 := Vec3.smul 2 (u.cross v)
  v.add ((Vec3.smul q.w t).add (u.cross t))

/-- A planar position `{x, z}` as pushed into `positionHistory`. -/
structure Pos where
  x : ℚ
  z : ℚ
deriving DecidableEq, Repr

/-- A JS number that is either finite or the sentinel `Infinity`, as used
for the sensor distances (`Infinity` means "not seen"). -/
inductive Dist where
  | fin (q : ℚ)
  | inf
deriving DecidableEq, Repr

/-- JS `<` on distances where the right side may be `Infinity`:
`a < Infinity` is true for finite `a`, `Infinity < b` is always false. -/
def Dist.lt : Dist → Dist → Bool
  | .fin a, .fin b => decide (a < b)
  | .fin _, .inf => true
  | .inf, _ => false

/-- JS `<` against a finite constant (`sensoryData.wall_distance < 1.0`):
`Infinity < c` is false. -/
def Dist.ltQ : Dist → ℚ → Bool
  | .fin a, c => decide (a < c)
  | .inf, _ => false

/-! ## Bridge outbound: `src/communication.js` `BrainSocket.send` -/

/-- `WebSocket.readyState` values. -/
inductive ReadyState where
  | CONNECTING
  | OPEN
  | CLOSING
  | CLOSED
deriving DecidableEq, Repr

/-- The payload `{ senses, reward }` is defined later with the sensor
model; for the socket layer the payload contents are opaque, so the
socket model is polymorphic in the payload type `α`. -/
structure SocketState (α : Type) where
  /-- `this.socket`: `none` models a null socket (never connected). -/
  socket : Option ReadyState
  /-- Transcript of payloads actually handed to the underlying
  `socket.send` (each is serialized by `JSON.stringify` at that point). -/
  sent : List α
deriving DecidableEq, Repr

/-- `BrainSocket.send` (`src/communication.js` lines 47–53): serialize
and transmit iff the socket exists and `readyState === WebSocket.OPEN`;
otherwise do nothing (a commented-out warning — no buffer, no retry, no
throw; the function is total). -/
def BrainSocket.send {α : Type} (s : SocketState α) (data : α) : SocketState α :=
  match s.socket with
  | some ReadyState.OPEN => { s with sent := s.sent ++ [data] }
  | _ => s

/-! ## Bridge inbound: `socket.onmessage` + the `brainSocket.connect`
callback in `src/main.js` lines 240–244 -/

/-- A parsed JSON value, the possible results of `JSON.parse`. -/
inductive JsonVal where
  | null
  | bool (b : Bool)
  | num (q : ℚ)
  | str (s : String)
  | arr (l : List JsonVal)
  | obj (l : List (String × JsonVal))

/-- JS truthiness of a parsed JSON value (`if (brainData)`). -/
def JsonVal.truthy : JsonVal → Bool
  | .null => false
  | .bool b => b
  | .num q => decide (q ≠ 0)
  | .str s => decide (s ≠ "")
  | .arr _ => true
  | .obj _ => true

/-- One inbound message (`socket.onmessage`, `src/communication.js`
lines 23–32, composed with the `connect` callback of `src/main.js` lines
240–244).  The argument `parsed` is the outcome of `JSON.parse` on the
wire data: `none` when the parse throws (malformed payload).  Returns
the new `latestBrainOutput` and whether an error was logged. -/
def onmessageStep (latest : JsonVal) (parsed : Option JsonVal) : JsonVal × Bool :=
  match parsed with
  | none => (latest, true)
  | some d => (if d.truthy then d else latest, false)

/-! ## Message relay: `proxy.js` -/

/-- Opaque transport unit: a byte sequence. -/
abbrev Bytes := List Nat

/-- The broadcast body of `forwardBrainToBrowsers` (`proxy.js` lines
18–30) for one upstream message: for each browser client, send the
message iff its `readyState` is `OPEN`.  Returns the list of deliveries
actually performed, in client order. -/
def forwardBrainToBrowsers (clients : List ReadyState) (message : Bytes) : List Bytes :=
  clients.filterMap (fun c => if c = ReadyState.OPEN then some message else none)

/-- The downstream `message` handler (`proxy.js` lines 35–39):
`brainSocket.send(message)` — the received unit is forwarded to the one
upstream connection as-is.  Modelled on the upstream send transcript. -/
def browserMessageHandler (upstreamSent : List Bytes) (message : Bytes) : List Bytes :=
  upstreamSent ++ [message]

/-! ## Sensor model: `src/agent.js` `Agent.sense` (lines 124–184)

Raycasting against the scene geometry is an external collaborator
(THREE.Raycaster); a ray's outcome is passed in: for a target ray the
first intersection (`intersects[0]`) as an optional color/distance pair,
for a wall ray the first intersection's distance.  A raycaster distance
is always a finite number. -/

/-- A target-ray hit: `firstHit.object.userData.color` and
`firstHit.distance`. -/
structure Hit where
  color : String
  dist : ℚ
deriving DecidableEq, Repr

/-- The outcomes of the fixed ray bundle for one `sense()` call: the
three target rays at angles 0 / −0.3 / +0.3 and the five wall rays
(whiskers), in the order `visionRays` iterates them. -/
structure RayHits where
  front : Option Hit
  left : Option Hit
  right : Option Hit
  walls : List (Option ℚ)
deriving DecidableEq, Repr

/-- One wall ray of the `visionRays.forEach` loop: a hit sets
`sees_wall` and lowers `closestWallDist` when strictly closer
(`intersects[0].distance < closestWallDist`). -/
def senseWallStep (acc : Bool × Dist) (h : Option ℚ) : Bool × Dist :=
  match h with
  | none => acc
  | some d => (true, if Dist.lt (.fin d) acc.2 then .fin d else acc.2)

/-- The wall-ray part of the `visionRays.forEach` loop, starting from
`sees_wall = false`, `closestWallDist = Infinity`. -/
def senseWalls (walls : List (Option ℚ)) : Bool × Dist :=
  walls.foldl senseWallStep (false, Dist.inf)

/-- The minimum of a list of hit distances, `Infinity` when no ray hit
(how the spec describes the wall channel). -/
def minDist : List ℚ → Dist
  | [] => Dist.inf
  | q :: qs => Dist.fin (qs.foldl min q)

/-- The `PerceptionSnapshot` object built by `sense()`. -/
structure Sensory where
  sees : Option String
  distance : Dist
  sees_left : Option String
  distance_left : Dist
  sees_right : Option String
  distance_right : Dist
  sees_wall : Bool
  wall_distance : Dist
  position : Pos
  orientation : ℚ
  velocity : Pos
  angular_velocity : ℚ
deriving DecidableEq, Repr

/-- The mesh state `sense()` and `act()` read: `this.mesh.position`,
`this.mesh.quaternion` and `this.mesh.rotation.y` (THREE keeps the Euler
`rotY` synchronized with the quaternion; the trigonometric extraction is
library code, passed in as `eulerY` where needed). -/
structure MeshPose where
  position : Vec3
  quaternion : Quat
  rotY : ℚ
deriving DecidableEq, Repr

/-- The physics body fields the core touches (`this.body`). -/
structure BodyState where
  position : Vec3
  velocity : Vec3
  angularVelocity : Vec3
  force : Vec3
  torque : Vec3
  quaternion : Quat
  awake : Bool
deriving DecidableEq, Repr

/-- `Agent.sense` (`src/agent.js` lines 124–184): assemble the snapshot
from the ray outcomes plus proprioception.  The three target rays write
disjoint channel fields (angle 0 → center, negative → left, positive →
right); the wall rays fold into `sees_wall` / `closestWallDist`, and
`wall_distance` is set to the final `closestWallDist`. -/
def Agent.sense (pose : MeshPose) (body : BodyState) (hits : RayHits) : Sensory :=
  let sw := senseWalls hits.walls
  { sees := hits.front.map Hit.color
    distance := match hits.front with | some h => .fin h.dist | none => .inf
    sees_left := hits.left.map Hit.color
    distance_left := match hits.left with | some h => .fin h.dist | none => .inf
    sees_right := hits.right.map Hit.color
    distance_right := match hits.right with | some h => .fin h.dist | none => .inf
    sees_wall := sw.1
    wall_distance := sw.2
    position := ⟨pose.position.x, pose.position.z⟩
    orientation := pose.rotY
    velocity := ⟨body.velocity.x, body.velocity.z⟩
    angular_velocity := body.angularVelocity.y }

/-! ## Agent state and actuation: `src/agent.js` -/

/-- The mutable agent fields the core touches. -/
structure AgentState where
  body : BodyState
  reward : ℚ
  totalReward : ℚ
  stepCount : Nat
  needsReset : Bool
deriving DecidableEq, Repr

/-- `this.initialPosition = new CANNON.Vec3(0, 3, 8)`. -/
def initialPosition : Vec3 := ⟨0, 3, 8⟩

/-- `Agent.resetPosition` (`src/agent.js` lines 70–96): teleport to the
initial pose, zero velocities, reset the quaternion to identity and wake
the body (the `aabb` sync is internal to the physics library). -/
def Agent.resetPosition (b : BodyState) : BodyState :=
  { b with
    position := initialPosition
    velocity := Vec3.zero
    angularVelocity := Vec3.zero
    quaternion := Quat.ident
    awake := true }

/-- A motor command `{left, right}`. -/
structure Motor where
  left : ℚ
  right : ℚ
deriving DecidableEq, Repr

/-- `Agent.act` (`src/agent.js` lines 186–238).  `commands = none`
models a null/non-object argument (early return before the step-count
increment).  Forces are only written when above the dead-band 0.1, so a
stale force/torque persists otherwise, exactly as in the source. -/
def Agent.act (a : AgentState) (pose : MeshPose) (commands : Option Motor) : AgentState :=
  match commands with
  | none => a
  | some cmd =>
    let maxForce : ℚ := 150
    let maxTorque : ℚ := 50
    let forwardForce : ℚ := (cmd.left + cmd.right) * maxForce * (1/2)
    let turningTorque : ℚ := (cmd.left - cmd.right) * maxTorque
    let forward : Vec3 := pose.quaternion.rotate ⟨0, 0, -1⟩
    let b1 :=
      if |forwardForce| > 1/10 then
        { a.body with force := ⟨forward.x * forwardForce, 0, forward.z * forwardForce⟩ }
      else a.body
    let b2 :=
      if |turningTorque| > 1/10 then { b1 with torque := ⟨0, turningTorque, 0⟩ }
      else b1
    let b3 := { b2 with awake := true }
    { a with body := b3, stepCount := a.stepCount + 1 }

/-- `Agent.checkAndResetReward` (`src/agent.js` lines 240–245): read the
accumulator, add it to `totalReward`, zero it, and return the read
value. -/
def Agent.checkAndResetReward (a : AgentState) : ℚ × AgentState :=
  let currentReward := a.reward
  (currentReward, { a with totalReward := a.totalReward + currentReward, reward := 0 })

/-- The `collide` event listener (`src/main.js` lines 286–316):
`event.body.userData?.id` is the tag (`none` when `userData` is absent).
Known tags assign (overwrite) a fixed reward and set the deferred-reset
flag; anything else falls through all three branches unchanged.
(`performanceTracker.recordEvent` and the console logs touch no core
state.) -/
def collideHandler (a : AgentState) (tag : Option String) : AgentState :=
  if tag = some "button_red" then { a with reward := 5, needsReset := true }
  else if tag = some "button_blue" then { a with reward := -1, needsReset := true }
  else if tag = some "wall" then { a with reward := -2, needsReset := true }
  else a

/-! ## Reward shaper: `src/main.js` `calculateReward` (lines 247–283)

The module-level mutable `positionHistory` is passed in and returned.
`-0.002 = -1/500`; the `Math.sqrt(e) < c` tests on nonnegative `e` are
translated to `e < c^2`. -/

def STAGNATION_FRAMES : Nat := 100

/-- The distance-preference chain used for the approach bonus:
`d.distance !== Infinity ? d.distance : (d.distance_left !== Infinity ?
d.distance_left : d.distance_right)`. -/
def preferredTargetDistance (d : Sensory) : Dist :=
  if d.distance ≠ Dist.inf then d.distance
  else if d.distance_left ≠ Dist.inf then d.distance_left
  else d.distance_right

/-- `calculateReward(sensoryData, lastSensoryData)`; `none` models a
null/undefined argument (the first frame has `lastSensoryData = null`).
Returns the reward and the updated `positionHistory`. -/
def calculateReward (sensoryData lastSensoryData : Option Sensory)
    (positionHistory : List Pos) : ℚ × List Pos :=
  match sensoryData, lastSensoryData with
  | some s, some ls =>
    let reward0 : ℚ := -1/500
    let isSeeingRed : Bool :=
      decide (s.sees = some "red") || decide (s.sees_left = some "red") ||
        decide (s.sees_right = some "red")
    let isSeeingBlue : Bool :=
      decide (s.sees = some "blue") || decide (s.sees_left = some "blue") ||
        decide (s.sees_right = some "blue")
    let isMoving : Bool := decide (s.velocity.x ^ 2 + s.velocity.z ^ 2 > (1/10) ^ 2)
    let reward1 : ℚ :=
      if isSeeingRed then
        let r := reward0 + 1/100
        let currentDistance := preferredTargetDistance s
        let lastDistance := preferredTargetDistance ls
        if Dist.lt currentDistance lastDistance then r + 1/5 else r
      else if isSeeingBlue then reward0 - 1/10
      else
        let isTurning : Bool := decide (|s.angular_velocity| > 1/5)
        let r := if isTurning then reward0 + 1/10 else reward0
        if isMoving && !isTurning then r - 1/5 else r
    let reward2 : ℚ :=
      if s.sees_wall && Dist.ltQ s.wall_distance 1 then reward1 - 1/2 else reward1
    let h1 := positionHistory ++ [s.position]
    if h1.length > STAGNATION_FRAMES then
      let h2 := h1.tail
      let firstPos := h2.headD ⟨0, 0⟩
      let lastPos := h2.getLastD ⟨0, 0⟩
      let distanceMovedSq := (lastPos.x - firstPos.x) ^ 2 + (lastPos.z - firstPos.z) ^ 2
      (if distanceMovedSq < (1/2) ^ 2 then reward2 - 1/100 else reward2, h2)
    else (reward2, h1)
  | _, _ => (0, positionHistory)

/-! ## Simulation loop: `src/main.js` `animate` (lines 331–381) -/

/-- The per-tick payload handed to `brainSocket.send`:
`{ senses: sensoryData, reward: agent.reward }`. -/
structure Payload where
  senses : Sensory
  reward : ℚ
deriving DecidableEq, Repr

/-- The observable steps of one loop invocation, used to state ordering
and dead-frame properties. -/
inductive Ev where
  | drain
  | sense
  | rewardCalc
  | send
  | act
  | physics
  | render
deriving DecidableEq, BEq, Repr

/-- Event `a` occurs (first) before event `b` in a trace. -/
def occursBefore (a b : Ev) (tr : List Ev) : Prop := tr.indexOf a < tr.indexOf b

instance (a b : Ev) (tr : List Ev) : Decidable (occursBefore a b tr) :=
  inferInstanceAs (Decidable (_ < _))

/-- The module-level mutable state of `src/main.js` that the loop
touches. `latestMotor` models `latestBrainOutput.motor_commands`
(`none` when absent — `latestBrainOutput` starts as `{}`). -/
structure SimState where
  agent : AgentState
  mesh : MeshPose
  lastSensoryData : Option Sensory
  positionHistory : List Pos
  latestMotor : Option Motor
deriving DecidableEq, Repr

/-- One invocation of `animate` (`src/main.js` lines 331–381), minus the
self-rescheduling.  External collaborators are parameters: `scene` gives
the ray-bundle outcomes as a function of the mesh pose (static scene ⇒
deterministic), `eulerY` is THREE's Euler-Y extraction, and `stepBody`
is `physicsWorld.step` for this frame's `deltaTime`, returning the
integrated body and the tags of the `collide` events it fired (handled
by `collideHandler`).  Returns the new state, the trace of steps
performed, and the payload passed to `brainSocket.send` (if any).
`performanceTracker.update`, the visualizer update and the UI panel
write no core state and are not modelled. -/
def animate (scene : MeshPose → RayHits) (eulerY : Quat → ℚ)
    (stepBody : BodyState → BodyState × List (Option String))
    (st : SimState) : SimState × List Ev × Option Payload :=
  if st.agent.needsReset then
    let b0 := st.agent.body
    let b1 := { b0 with velocity := Vec3.zero, angularVelocity := Vec3.zero,
                        force := Vec3.zero, torque := Vec3.zero }
    let b2 := Agent.resetPosition b1
    ({ st with agent := { st.agent with body := b2, needsReset := false } }, [], none)
  else
    let ag1 := (Agent.checkAndResetReward st.agent).2
    let sensoryData := Agent.sense st.mesh ag1.body (scene st.mesh)
    let cr := calculateReward (some sensoryData) st.lastSensoryData st.positionHistory
    let ag2 := { ag1 with reward := ag1.reward + cr.1 }
    let payload : Payload := { senses := sensoryData, reward := ag2.reward }
    let ag3 := Agent.act ag2 st.mesh (some (st.latestMotor.getD ⟨0, 0⟩))
    let step := stepBody ag3.body
    let ag4 := step.2.foldl collideHandler { ag3 with body := step.1 }
    let mesh2 : MeshPose :=
      { position := step.1.position, quaternion := step.1.quaternion,
        rotY := eulerY step.1.quaternion }
    ({ agent := ag4, mesh := mesh2, lastSensoryData := some sensoryData,
       positionHistory := cr.2, latestMotor := st.latestMotor },
     [Ev.drain, Ev.sense, Ev.rewardCalc, Ev.send, Ev.act, Ev.physics, Ev.render],
     some payload)

/-! ## Concrete fixtures used by counterexamples and witnesses -/

/-- A body at rest at the initial pose. -/
def restBody : BodyState :=
  { position := initialPosition, velocity := Vec3.zero, angularVelocity := Vec3.zero,
    force := Vec3.zero, torque := Vec3.zero, quaternion := Quat.ident, awake := true }

/-- The mesh pose matching `restBody`. -/
def restMesh : MeshPose := { position := initialPosition, quaternion := Quat.ident, rotY := 0 }

/-- A scene in which no ray intersects anything (all eight rays miss). -/
def sceneEmpty : MeshPose → RayHits :=
  fun _ => { front := none, left := none, right := none, walls := [none, none, none, none, none] }

/-- A trivial Euler-Y extraction for fixtures. -/
def eulerYZero : Quat → ℚ := fun _ => 0

/-- A physics step that leaves the body unchanged and fires no collide
events. -/
def stepIdNoCollide : BodyState → BodyState × List (Option String) := fun b => (b, [])

/-- A snapshot seeing nothing, at the origin, at rest. -/
def stationarySensory : Sensory :=
  { sees := none, distance := Dist.inf, sees_left := none, distance_left := Dist.inf,
    sees_right := none, distance_right := Dist.inf, sees_wall := false,
    wall_distance := Dist.inf, position := ⟨0, 0⟩, orientation := 0,
    velocity := ⟨0, 0⟩, angular_velocity := 0 }

/-- A loop state mid-episode: a collision callback has just assigned
`agent.reward = 5.0` (red button) but the reset already ran, so the tick
is a normal one; the previous snapshot exists and the history is empty. -/
def collidedState : SimState :=
  { agent := { body := restBody, reward := 5, totalReward := 0, stepCount := 0,
               needsReset := false },
    mesh := restMesh, lastSensoryData := some stationarySensory,
    positionHistory := [], latestMotor := none }

/-! ## Iterating the reward shaper on identical snapshots (stagnation) -/

/-- The `positionHistory` after feeding the same snapshot `s` to
`calculateReward` `n` times, starting from an empty history. -/
def histIter (s : Sensory) : Nat → List Pos
  | 0 => []
  | n + 1 => (calculateReward (some s) (some s) (histIter s n)).2

/-- The reward returned by the `n`-th consecutive call (`n ≥ 1`) of
`calculateReward` on the same snapshot `s`, starting from an empty
history. -/
def rewardOnCall (s : Sensory) (n : Nat) : ℚ :=
  (calculateReward (some s) (some s) (histIter s (n - 1))).1

/-! ## Lemmas about the wall-ray fold -/

theorem senseWalls_go (l : List (Option ℚ)) (b : Bool) (d : Dist) :
    l.foldl senseWallStep (b, d)
      = (b || !(l.filterMap id).isEmpty,
         (l.filterMap id).foldl
           (fun acc q => if Dist.lt (.fin q) acc then .fin q else acc) d) := by
  induction l generalizing b d with
  | nil => simp
  | cons h t ih =>
    cases h with
    | none => simp [senseWallStep, ih]
    | some q => simp [senseWallStep, ih]

theorem foldl_min_fin (qs : List ℚ) (a : ℚ) :
    qs.foldl (fun acc q => if Dist.lt (.fin q) acc then .fin q else acc) (Dist.fin a)
      = Dist.fin (qs.foldl min a) := by
  induction qs generalizing a with
  | nil => rfl
  | cons q t ih =>
    simp only [List.foldl_cons]
    have hmin : (if Dist.lt (.fin q) (.fin a) then Dist.fin q else Dist.fin a)
        = Dist.fin (min a q) := by
      by_cases hqa : q < a
      · simp [Dist.lt, hqa, min_eq_right (le_of_lt hqa)]
      · simp [Dist.lt, hqa, min_eq_left (not_lt.mp hqa)]
    rw [hmin, ih]

theorem senseWalls_eq (walls : List (Option ℚ)) :
    senseWalls walls = (!(walls.filterMap id).isEmpty, minDist (walls.filterMap id)) := by
  unfold senseWalls
  rw [senseWalls_go]
  simp only [Bool.false_or]
  congr 1
  cases hq : walls.filterMap id with
  | nil => rfl
  | cons q t =>
    simp only [List.foldl_cons, minDist]
    have h1 : (if Dist.lt (.fin q) Dist.inf then Dist.fin q else Dist.inf) = Dist.fin q := rfl
    rw [h1, foldl_min_fin]

/-! ## Claim theorems -/

/-- Claim C10: every snapshot produced by the sensor model has, for each
target channel, a non-null color tag iff a finite distance; a not-seen
wall channel carries distance `Infinity`, and a seen wall channel
carries the minimum hit distance among the wall rays that intersected. -/
theorem sense_invariants (pose : MeshPose) (body : BodyState) (hits : RayHits) :
    ((Agent.sense pose body hits).sees ≠ none
        ↔ (Agent.sense pose body hits).distance ≠ Dist.inf) ∧
    ((Agent.sense pose body hits).sees_left ≠ none
        ↔ (Agent.sense pose body hits).distance_left ≠ Dist.inf) ∧
    ((Agent.sense pose body hits).sees_right ≠ none
        ↔ (Agent.sense pose body hits).distance_right ≠ Dist.inf) ∧
    ((Agent.sense pose body hits).sees_wall = false →
        (Agent.sense pose body hits).wall_distance = Dist.inf) ∧
    ((Agent.sense pose body hits).sees_wall = true →
        (Agent.sense pose body hits).wall_distance = minDist (hits.walls.filterMap id)) := by
  refine ⟨?_, ?_, ?_, ?_, ?_⟩
  · cases hf : hits.front <;> simp [Agent.sense, hf]
  · cases hl : hits.left <;> simp [Agent.sense, hl]
  · cases hr : hits.right <;> simp [Agent.sense, hr]
  · intro h
    simp only [Agent.sense, senseWalls_eq] at h ⊢
    have : hits.walls.filterMap id = [] := by
      simpa [List.isEmpty_iff] using h
    rw [this]
    rfl
  · intro _
    simp only [Agent.sense, senseWalls_eq]

/-- A ray bundle hitting two walls (at distances 3 and 2) and one
target on the left ray, used to witness `sense_invariants`. -/
def wallHits : RayHits :=
  { front := none, left := some ⟨"red", 7⟩, right := none,
    walls := [none, some 3, some 2, none, none] }

/-- Witness for `sense_invariants` at the concrete bundle `wallHits`. -/
theorem sense_invariants_witness :
    (Agent.sense restMesh restBody wallHits).wall_distance = Dist.fin 2 ∧
    (Agent.sense restMesh restBody wallHits).sees_left ≠ none := by
  have h := sense_invariants restMesh restBody wallHits
  constructor
  · exact (h.2.2.2.2 (by with_unfolding_all decide)).trans (by with_unfolding_all decide)
  · exact h.2.1.mpr (by with_unfolding_all decide)

/-- Claim C9: when either snapshot argument is missing, the continuous
reward function returns exactly 0 and pushes nothing into the
stagnation window. -/
theorem reward_missing_snapshot (s ls : Option Sensory) (hist : List Pos) :
    calculateReward none ls hist = (0, hist) ∧
    calculateReward s none hist = (0, hist) := by
  constructor
  · cases ls <;> rfl
  · cases s <;> rfl

/-- Claim C8: the relay's upstream→downstream broadcast over an empty
client set performs no delivery (and raises nothing — the function is
total), and a message from any downstream connection is forwarded to
the single upstream connection byte-for-byte, with no origin tag. -/
theorem relay_noop_and_verbatim (msg : Bytes) (upstreamSent : List Bytes) :
    forwardBrainToBrowsers [] msg = [] ∧
    browserMessageHandler upstreamSent msg = upstreamSent ++ [msg] :=
  ⟨rfl, rfl⟩

/-- Claim C6: an inbound payload on which `JSON.parse` throws is logged
and discarded; `latestBrainOutput` keeps its prior value. -/
theorem malformed_inbound_discarded (latest : JsonVal) :
    onmessageStep latest none = (latest, true) := rfl

/-- Claim C7: an outbound payload is serialized and handed to the
socket iff the channel reports itself `OPEN`; otherwise the send leaves
the whole socket state untouched (nothing buffered, nothing retried,
and the function is total, so nothing is thrown to the loop). -/
theorem send_iff_open {α : Type} (s : SocketState α) (d : α) :
    (s.socket = some ReadyState.OPEN →
      BrainSocket.send s d = { s with sent := s.sent ++ [d] }) ∧
    (s.socket ≠ some ReadyState.OPEN → BrainSocket.send s d = s) := by
  constructor
  · intro h
    simp [BrainSocket.send, h]
  · intro h
    unfold BrainSocket.send
    match hs : s.socket with
    | none => rfl
    | some ReadyState.CONNECTING => rfl
    | some ReadyState.OPEN => exact absurd hs h
    | some ReadyState.CLOSING => rfl
    | some ReadyState.CLOSED => rfl

/-- Witness for `send_iff_open`: one open-channel send that transmits,
one closed-channel send that is dropped. -/
theorem send_iff_open_witness :
    BrainSocket.send (⟨some ReadyState.OPEN, []⟩ : SocketState ℚ) 1
      = ⟨some ReadyState.OPEN, [1]⟩ ∧
    BrainSocket.send (⟨some ReadyState.CLOSED, []⟩ : SocketState ℚ) 1
      = ⟨some ReadyState.CLOSED, []⟩ :=
  ⟨(send_iff_open ⟨some ReadyState.OPEN, []⟩ 1).1 rfl,
   (send_iff_open ⟨some ReadyState.CLOSED, []⟩ 1).2 (by simp)⟩

/-- Claim C5: the collide listener assigns (overwrites) +5.0 / −1.0 /
−2.0 for the red button, blue button and wall tags, setting the
deferred-reset flag in each case, and leaves the agent untouched for
every other tag. -/
theorem collide_tags (a : AgentState) (tag : Option String) :
    collideHandler a (some "button_red") = { a with reward := 5, needsReset := true } ∧
    collideHandler a (some "button_blue") = { a with reward := -1, needsReset := true } ∧
    collideHandler a (some "wall") = { a with reward := -2, needsReset := true } ∧
    (tag ≠ some "button_red" → tag ≠ some "button_blue" → tag ≠ some "wall" →
      collideHandler a tag = a) := by
  refine ⟨by simp [collideHandler], by simp [collideHandler], by simp [collideHandler], ?_⟩
  intro h1 h2 h3
  simp [collideHandler, h1, h2, h3]

/-- Witness for `collide_tags`: the agent's own tag (`'agent'`) is
ignored; the red-button tag overwrites a pending −2 with +5 and sets
the flag. -/
theorem collide_tags_witness :
    collideHandler ⟨restBody, -2, 0, 0, false⟩ (some "agent")
      = ⟨restBody, -2, 0, 0, false⟩ ∧
    collideHandler ⟨restBody, -2, 0, 0, false⟩ (some "button_red")
      = ⟨restBody, 5, 0, 0, true⟩ :=
  ⟨(collide_tags ⟨restBody, -2, 0, 0, false⟩ (some "agent")).2.2.2
      (by simp) (by simp) (by simp),
   (collide_tags ⟨restBody, -2, 0, 0, false⟩ (some "agent")).1⟩

/-- Claim C2: a loop invocation that starts with the reset flag set
zeroes the body's linear velocity, angular velocity, force and torque,
teleports to the fixed initial pose (identity orientation, body awake),
clears the flag, and does nothing else: no event of the tick body runs,
no payload reaches the Bridge, and the reward accumulator, total
reward, step count, previous snapshot, stagnation window, mesh and
latest action are all left untouched. -/
theorem dead_frame_reset (scene : MeshPose → RayHits) (eulerY : Quat → ℚ)
    (stepBody : BodyState → BodyState × List (Option String)) (st : SimState)
    (h : st.agent.needsReset = true) :
    (animate scene eulerY stepBody st).1.agent.body.velocity = Vec3.zero ∧
    (animate scene eulerY stepBody st).1.agent.body.angularVelocity = Vec3.zero ∧
    (animate scene eulerY stepBody st).1.agent.body.force = Vec3.zero ∧
    (animate scene eulerY stepBody st).1.agent.body.torque = Vec3.zero ∧
    (animate scene eulerY stepBody st).1.agent.body.position = initialPosition ∧
    (animate scene eulerY stepBody st).1.agent.body.quaternion = Quat.ident ∧
    (animate scene eulerY stepBody st).1.agent.body.awake = true ∧
    (animate scene eulerY stepBody st).1.agent.needsReset = false ∧
    (animate scene eulerY stepBody st).2.1 = [] ∧
    (animate scene eulerY stepBody st).2.2 = none ∧
    (animate scene eulerY stepBody st).1.agent.reward = st.agent.reward ∧
    (animate scene eulerY stepBody st).1.agent.totalReward = st.agent.totalReward ∧
    (animate scene eulerY stepBody st).1.agent.stepCount = st.agent.stepCount ∧
    (animate scene eulerY stepBody st).1.lastSensoryData = st.lastSensoryData ∧
    (animate scene eulerY stepBody st).1.positionHistory = st.positionHistory ∧
    (animate scene eulerY stepBody st).1.mesh = st.mesh ∧
    (animate scene eulerY stepBody st).1.latestMotor = st.latestMotor := by
  simp [animate, h, Agent.resetPosition]

/-- A body in mid-flight with stale force and torque, used to witness
the dead frame. -/
def movingBody : BodyState :=
  { position := ⟨1, 3, 2⟩, velocity := ⟨2, 0, 1⟩, angularVelocity := ⟨0, 1, 0⟩,
    force := ⟨3, 0, 0⟩, torque := ⟨0, 4, 0⟩, quaternion := ⟨0, 1, 0, 0⟩, awake := true }

/-- A loop state right after a wall collision: the callback assigned
−2.0 and requested a reset. -/
def pendingResetState : SimState :=
  { agent := { body := movingBody, reward := -2, totalReward := 1, stepCount := 7,
               needsReset := true },
    mesh := restMesh, lastSensoryData := some stationarySensory,
    positionHistory := [⟨1, 2⟩], latestMotor := some ⟨1, 1/2⟩ }

/-- Witness for `dead_frame_reset` at `pendingResetState`. -/
theorem dead_frame_reset_witness :
    (animate sceneEmpty eulerYZero stepIdNoCollide pendingResetState).1.agent.body.velocity
      = Vec3.zero ∧
    (animate sceneEmpty eulerYZero stepIdNoCollide pendingResetState).1.agent.body.position
      = initialPosition ∧
    (animate sceneEmpty eulerYZero stepIdNoCollide pendingResetState).1.agent.needsReset
      = false ∧
    (animate sceneEmpty eulerYZero stepIdNoCollide pendingResetState).2.1 = [] ∧
    (animate sceneEmpty eulerYZero stepIdNoCollide pendingResetState).2.2 = none := by
  obtain ⟨h1, _, _, _, h5, _, _, h8, h9, h10, _⟩ :=
    dead_frame_reset sceneEmpty eulerYZero stepIdNoCollide pendingResetState rfl
  exact ⟨h1, h5, h8, h9, h10⟩

/-- Claim C4 counterexample: on a concrete non-dead tick the physics
advance does not precede the perception snapshot — it is the
second-to-last step of the tick. -/
theorem tick_order_claim_false :
    ¬ occursBefore Ev.physics Ev.sense
        (animate sceneEmpty eulerYZero stepIdNoCollide collidedState).2.1 := by
  with_unfolding_all decide

/-- Claim C4 (amended): within every non-dead tick the steps run in the
fixed order drain → sense → continuous reward → Bridge send → actuation
→ physics advance → render; in particular sensing precedes reward
computation, which precedes the send, which precedes actuation, but the
physics engine is advanced after actuation, at the end of the tick (the
snapshot sensed reflects the previous tick's physics advance). -/
theorem tick_order (scene : MeshPose → RayHits) (eulerY : Quat → ℚ)
    (stepBody : BodyState → BodyState × List (Option String)) (st : SimState)
    (h : st.agent.needsReset = false) :
    (animate scene eulerY stepBody st).2.1
      = [Ev.drain, Ev.sense, Ev.rewardCalc, Ev.send, Ev.act, Ev.physics, Ev.render] ∧
    occursBefore Ev.sense Ev.rewardCalc (animate scene eulerY stepBody st).2.1 ∧
    occursBefore Ev.rewardCalc Ev.send (animate scene eulerY stepBody st).2.1 ∧
    occursBefore Ev.send Ev.act (animate scene eulerY stepBody st).2.1 ∧
    occursBefore Ev.act Ev.physics (animate scene eulerY stepBody st).2.1 := by
  have ht : (animate scene eulerY stepBody st).2.1
      = [Ev.drain, Ev.sense, Ev.rewardCalc, Ev.send, Ev.act, Ev.physics, Ev.render] := by
    simp [animate, h]
  refine ⟨ht, ?_, ?_, ?_, ?_⟩ <;> rw [ht] <;> decide

/-- Witness for `tick_order` at the concrete state `collidedState`. -/
theorem tick_order_witness :
    (animate sceneEmpty eulerYZero stepIdNoCollide collidedState).2.1
      = [Ev.drain, Ev.sense, Ev.rewardCalc, Ev.send, Ev.act, Ev.physics, Ev.render] ∧
    occursBefore Ev.sense Ev.rewardCalc
      (animate sceneEmpty eulerYZero stepIdNoCollide collidedState).2.1 ∧
    occursBefore Ev.act Ev.physics
      (animate sceneEmpty eulerYZero stepIdNoCollide collidedState).2.1 := by
  obtain ⟨h1, h2, _, _, h5⟩ :=
    tick_order sceneEmpty eulerYZero stepIdNoCollide collidedState rfl
  exact ⟨h1, h2, h5⟩

set_option maxRecDepth 10000 in
/-- Claim C1 counterexample: on a concrete non-dead tick whose
accumulator holds a collision-assigned 5.0 at the moment of the drain,
the value sent through the Bridge is the continuous reward −0.002, not
the drained 5.0, and the accumulator holds −0.002 ≠ 0 at the end of the
tick (no further write occurs between the send and the tick's end, as
the physics step fires no collision). -/
theorem reward_drain_claim_false :
    collidedState.agent.reward = 5 ∧
    (animate sceneEmpty eulerYZero stepIdNoCollide collidedState).2.2.map Payload.reward
      = some (-1/500) ∧
    (animate sceneEmpty eulerYZero stepIdNoCollide collidedState).1.agent.reward
      = -1/500 := by
  with_unfolding_all decide

/-- Claim C1 (amended): on every non-dead tick the accumulator is read
and reset to zero exactly once, but at the start of the tick, before
the continuous reward is added; the drained value (including any
collision-assigned value) is folded into `totalReward` and is not
forwarded; the payload sent through the Bridge carries exactly the
continuous reward computed this tick, and after the send the
accumulator holds that continuous reward (not zero) — shown at the end
of the tick for a physics step that fires no collision callback. -/
theorem reward_drain_amended (scene : MeshPose → RayHits) (eulerY : Quat → ℚ)
    (stepBody : BodyState → BodyState × List (Option String)) (st : SimState)
    (h : st.agent.needsReset = false)
    (hnc : ∀ b, (stepBody b).2 = []) :
    (animate scene eulerY stepBody st).2.2
      = some { senses := Agent.sense st.mesh st.agent.body (scene st.mesh),
               reward := (calculateReward
                   (some (Agent.sense st.mesh st.agent.body (scene st.mesh)))
                   st.lastSensoryData st.positionHistory).1 } ∧
    (animate scene eulerY stepBody st).1.agent.totalReward
      = st.agent.totalReward + st.agent.reward ∧
    (animate scene eulerY stepBody st).1.agent.reward
      = (calculateReward (some (Agent.sense st.mesh st.agent.body (scene st.mesh)))
          st.lastSensoryData st.positionHistory).1 := by
  refine ⟨?_, ?_, ?_⟩ <;>
    simp [animate, h, hnc, Agent.checkAndResetReward, Agent.act]

set_option maxRecDepth 10000 in
/-- Witness for `reward_drain_amended` at `collidedState`: the drained
5.0 lands in `totalReward`, the sent and retained reward are the
continuous −0.002. -/
theorem reward_drain_amended_witness :
    (animate sceneEmpty eulerYZero stepIdNoCollide collidedState).2.2.map Payload.reward
      = some (-1/500) ∧
    (animate sceneEmpty eulerYZero stepIdNoCollide collidedState).1.agent.totalReward = 5 ∧
    (animate sceneEmpty eulerYZero stepIdNoCollide collidedState).1.agent.reward
      = -1/500 := by
  obtain ⟨h1, h2, h3⟩ :=
    reward_drain_amended sceneEmpty eulerYZero stepIdNoCollide collidedState rfl
      (fun _ => rfl)
  refine ⟨?_, ?_, ?_⟩
  · rw [h1]
    with_unfolding_all decide
  · rw [h2]
    with_unfolding_all decide
  · rw [h3]
    with_unfolding_all decide

/-! ## Lemmas for the stagnation window fed with identical snapshots -/

set_option maxRecDepth 10000 in
theorem calc_stationary_replicate_lt (k : Nat) (hk : k < 100) :
    calculateReward (some stationarySensory) (some stationarySensory)
      (List.replicate k (⟨0, 0⟩ : Pos))
      = (-1/500, List.replicate (k + 1) (⟨0, 0⟩ : Pos)) := by
  have hpos : stationarySensory.position = (⟨0, 0⟩ : Pos) := rfl
  have hlen : ¬ (List.replicate k (⟨0, 0⟩ : Pos) ++ [stationarySensory.position]).length
      > STAGNATION_FRAMES := by
    simp only [List.length_append, List.length_replicate, List.length_cons,
      List.length_nil, STAGNATION_FRAMES]
    omega
  simp only [calculateReward, hlen, if_false]
  rw [hpos, ← List.replicate_succ' k (⟨0, 0⟩ : Pos)]
  congr 1
  with_unfolding_all decide

set_option maxRecDepth 10000 in
theorem calc_stationary_replicate_100 :
    calculateReward (some stationarySensory) (some stationarySensory)
      (List.replicate 100 (⟨0, 0⟩ : Pos))
      = (-1/500 - 1/100, List.replicate 100 (⟨0, 0⟩ : Pos)) := by
  with_unfolding_all decide

theorem histIter_stationary (n : Nat) :
    histIter stationarySensory n = List.replicate (min n 100) (⟨0, 0⟩ : Pos) := by
  induction n with
  | zero => simp [histIter]
  | succ n ih =>
    rw [histIter, ih]
    by_cases hn : n < 100
    · rw [min_eq_left (le_of_lt hn), calc_stationary_replicate_lt n hn]
      have : min (n + 1) 100 = n + 1 := by omega
      rw [this]
    · have h100 : min n 100 = 100 := by omega
      have h100' : min (n + 1) 100 = 100 := by omega
      rw [h100, calc_stationary_replicate_100, h100']

/-- Claim C3 counterexample: feeding identical positions (the same
stationary snapshot) to the reward shaper, the 100th call still returns
the bare living cost −0.002 — no stagnation penalty — and the penalty
first appears on the 101st call. -/
theorem stagnation_call_100_no_penalty :
    rewardOnCall stationarySensory 100 = -1/500 ∧
    rewardOnCall stationarySensory 101 = -1/500 - 1/100 := by
  constructor
  · show (calculateReward _ _ (histIter stationarySensory 99)).1 = -1/500
    rw [histIter_stationary]
    rw [show min 99 100 = 99 from rfl, calc_stationary_replicate_lt 99 (by omega)]
  · show (calculateReward _ _ (histIter stationarySensory 100)).1 = -1/500 - 1/100
    rw [histIter_stationary]
    rw [show min 100 100 = 100 from rfl, calc_stationary_replicate_100]

/-- Claim C3 (amended): feeding identical positions, the −0.01
stagnation penalty appears for the first time on exactly the 101st
call and on every call thereafter (the displacement over a window of
identical positions is 0 < 0.5); a sequence of 100 or fewer identical
positions never yields it. -/
theorem stagnation_first_penalty (n : Nat) :
    (1 ≤ n → n ≤ 100 → rewardOnCall stationarySensory n = -1/500) ∧
    (101 ≤ n → rewardOnCall stationarySensory n = -1/500 - 1/100) := by
  constructor
  · intro _ h2
    unfold rewardOnCall
    rw [histIter_stationary]
    have hm : min (n - 1) 100 = n - 1 := by omega
    rw [hm, calc_stationary_replicate_lt (n - 1) (by omega)]
  · intro h
    unfold rewardOnCall
    rw [histIter_stationary]
    have hm : min (n - 1) 100 = 100 := by omega
    rw [hm, calc_stationary_replicate_100]

/-- Witness for `stagnation_first_penalty` at calls 99 and 101. -/
theorem stagnation_first_penalty_witness :
    rewardOnCall stationarySensory 99 = -1/500 ∧
    rewardOnCall stationarySensory 101 = -1/500 - 1/100 :=
  ⟨(stagnation_first_penalty 99).1 (by omega) (by omega),
   (stagnation_first_penalty 101).2 (by omega)⟩

end Morphogen
